import Mathlib

/-!
# Verification of the OpenRazer common protocol layer (`driver/razercommon.c`)

Shallow embedding of the request/response exchange (`razer_get_usb_response`),
the checksum (`razer_calculate_crc`), the control-transfer write helper
(`razer_send_control_msg`) and the addressable-LED frame sender
(`razer_send_argb_msg`).

The USB transport, the allocator and the kernel diagnostics are external
collaborators: each modelled function takes a "transport double" record
holding the outcomes the environment would produce (allocation success,
transferred byte counts, bytes deposited by the device-to-host read), and
returns, besides the C return value, the final contents of the caller-owned
report objects and the ordered list of externally visible events (control
transfers issued, diagnostics emitted).  Machine integers are modelled as
`Int` (the C `int` results) and `Nat` with explicit `% 256` where byte
wrap-around matters.
-/

namespace Razer

/-- Linux errno constant `EINVAL` (invalid argument), 22. -/
def EINVAL : Int := 22

/-- Linux errno constant `EIO` (I/O error), 5. -/
def EIO_val : Int := 5

/-- Linux errno constant `ENOMEM` (allocation failure), 12. -/
def ENOMEM : Int := 12

/-- Modelled from the spec: `razercommon.h`, which defines
`struct razer_report`, is not under `src/`.  Per the spec the record's total
length is the protocol constant `RAZER_USB_REPORT_LEN` = 90 bytes (the source
checks the read length against the literal `90`). -/
def RAZER_USB_REPORT_LEN : Nat := 90

/-- Modelled from the spec: `razercommon.h` is not under `src/`.  The spec
states the invariant `dataSize <= capacity of arguments (a fixed constant,
e.g. 80)`; `ARRAY_SIZE(response_report->arguments)` is this constant. -/
def argumentsCapacity : Nat := 80

/-- Modelled from the spec: `struct razer_report` from the missing
`razercommon.h`, the fixed-layout transaction record (status, transaction id,
continuation count, protocol type, data length, command class/id, argument
payload, checksum, trailing padding byte).  Field values are bytes. -/
structure razer_report where
  status : Nat
  transaction_id : Nat
  remaining_packets : Nat
  protocol_type : Nat
  data_size : Nat
  command_class : Nat
  command_id : Nat
  arguments : List Nat
  crc : Nat
  reserved : Nat
deriving Repr, DecidableEq

/-- Externally visible events of one `razer_get_usb_response` call, in
program order: the `WARN_ON` diagnostic for a zero transaction id, the write
phase (`razer_send_control_msg`, carrying the report it transmits), the
device-to-host read transfer, the `printk` diagnostic for a wrong-length
response, and the `WARN_ONCE` diagnostic for an oversized `data_size`. -/
inductive UsbEvent where
  | warnZeroTransactionId : UsbEvent
  | controlWrite (transmitted : razer_report) : UsbEvent
  | controlRead : UsbEvent
  | warnInvalidLength : UsbEvent
  | warnDataSize : UsbEvent
deriving Repr, DecidableEq

/-- Transport double for one `razer_get_usb_response` call: whether the
`kzalloc` scratch-buffer acquisition succeeds, the value the write phase
(`razer_send_control_msg`) returns, the byte count the read
`usb_control_msg` returns, and the report contents the read deposits in the
scratch buffer. -/
structure UsbExchangeInput where
  allocOk : Bool
  sendResult : Int
  readLen : Int
  readData : razer_report
deriving Repr, DecidableEq

/-- Result of one `razer_get_usb_response` call: the C return value, the
final contents of the caller's request report (the function may mutate it in
place), the final contents of the caller's response report, and the event
trace. -/
structure UsbExchangeResult where
  ret : Int
  request_report : razer_report
  response_report : razer_report
  events : List UsbEvent
deriving Repr, DecidableEq

/-- `razer_send_control_msg` (razercommon.c:20-51): duplicates the caller's
report into a scratch buffer (`allocOk` models `kmemdup`), issues the
host-to-device control transfer (`len` models its result), sleeps, frees the
buffer, and returns `len` if negative, `-EIO` on a short write, else `0`. -/
def razer_send_control_msg (allocOk : Bool) (len : Int) : Int :=
  if allocOk = false then -ENOMEM
  else if len < 0 then len
  else if len ≠ (RAZER_USB_REPORT_LEN : Int) then -EIO_val
  else 0

/-- `razer_get_usb_response` (razercommon.c:70-122).  Mirrors the source
statement by statement:
1. `WARN_ON`: a zero transaction id is coerced to `0xFF` in the caller's
   request report (lines 82-84);
2. `kzalloc` of the scratch buffer; on failure return `-ENOMEM` (86-88);
3. write phase: `razer_send_control_msg`; its result `retval` is captured
   but never read afterwards (92);
4. read phase: `usb_control_msg` device-to-host (95-102);
5. `memcpy` of the scratch buffer into the caller's response report, then
   `kfree` (104-105);
6. if the read length is not 90, `printk` and set `result = 1` (108-111);
7. if the response's `data_size` exceeds the arguments capacity, `WARN_ONCE`,
   clamp `data_size` to the capacity, and return `-EINVAL` (113-119);
8. otherwise return `result` (121). -/
def razer_get_usb_response (request_report response_report : razer_report)
    (t : UsbExchangeInput) : UsbExchangeResult :=
  let warnZero := request_report.transaction_id = 0
  let request_report :=
    if request_report.transaction_id = 0 then
      { request_report with transaction_id := 0xFF }
    else request_report
  let ev0 : List UsbEvent :=
    if warnZero then [UsbEvent.warnZeroTransactionId] else []
  if t.allocOk = false then
    { ret := -ENOMEM, request_report := request_report,
      response_report := response_report, events := ev0 }
  else
    -- retval := razer_send_control_msg ... : captured, never used below,
    -- exactly as in the source (line 92).
    let len := t.readLen
    let response_report := t.readData
    let result : Int := if len ≠ (RAZER_USB_REPORT_LEN : Int) then 1 else 0
    let ev1 := ev0 ++ [UsbEvent.controlWrite request_report, UsbEvent.controlRead]
      ++ (if len ≠ (RAZER_USB_REPORT_LEN : Int) then [UsbEvent.warnInvalidLength] else [])
    if response_report.data_size > argumentsCapacity then
      { ret := -EINVAL, request_report := request_report,
        response_report := { response_report with data_size := argumentsCapacity },
        events := ev1 ++ [UsbEvent.warnDataSize] }
    else
      { ret := result, request_report := request_report,
        response_report := response_report, events := ev1 }

/-- `razer_calculate_crc` (razercommon.c:157-170).  The source casts the
report to `unsigned char *` and XOR-folds its raw bytes at offsets 2 to 87
inclusive (`for (i = 2; i < 88; i++) crc ^= _report[i]`), so the function only
ever sees the raw 90-byte representation; the serialized report is modelled
as the byte-at-offset function `rep : Nat → Nat`. -/
def razer_calculate_crc (rep : Nat → Nat) : Nat :=
  (List.range' 2 86).foldl (fun crc i => crc ^^^ rep i % 256) 0

/-- Modelled from the spec: `struct razer_argb_report` from the missing
`razercommon.h`, the lighting-frame record: `reportId`, `channel1`,
`channel2`, `pad`, `lastIndex` (one byte each), then the fixed-capacity
triplet buffer `colorData`.  The buffer capacity is kept as an explicit
parameter `cap` of the operations, since the spec fixes no numeric value
for it. -/
structure razer_argb_report where
  report_id : Nat
  channel_1 : Nat
  channel_2 : Nat
  pad : Nat
  last_idx : Nat
  color_data : List Nat
deriving Repr, DecidableEq

/-- Externally visible events of one `razer_send_argb_msg` call, in program
order: the `printk(KERN_ERR "size too big")` diagnostic, the control
transfer (carrying the frame it transmits, the transfer's index parameter
and its length parameter), and the `printk` short-transfer diagnostic. -/
inductive ArgbEvent where
  | errSizeTooBig : ArgbEvent
  | controlWrite (frame : razer_argb_report) (index : Nat) (length : Nat) : ArgbEvent
  | warnTransferFailed : ArgbEvent
deriving Repr, DecidableEq

/-- `razer_send_argb_msg` (razercommon.c:273-319).  Mirrors the source:
1. `report_id` is `0x04` for `channel < 5`, else `0x84`; both channel fields
   are set to `channel`; `pad = 0`; `last_idx = size - 1` in `unsigned char`
   arithmetic (283-294);
2. if `size * 3 > ARRAY_SIZE(report.color_data)` (the capacity `cap`),
   `printk(KERN_ERR)` and return `-EINVAL` with no transfer issued
   (296-299);
3. `memcpy` of `size * 3` bytes of caller color data into the frame (301);
4. the control transfer with fixed index `0x01` and length
   `sizeof(report) = 5 + cap`; `transferLen` models its result (303-313);
5. if the transferred count differs from `sizeof(report)`, `printk` a
   warning (315-316);
6. return `len` if negative, else `-EIO` if `len != size` — the comparison
   in the source is against the `size` parameter (the LED count), not
   against `sizeof(report)` — else `0` (318). -/
def razer_send_argb_msg (cap : Nat) (channel size : Nat) (data : List Nat)
    (transferLen : Int) : Int × List ArgbEvent :=
  let report : razer_argb_report :=
    { report_id := if channel < 5 then 0x04 else 0x84
      channel_1 := channel
      channel_2 := channel
      pad := 0
      last_idx := (size + 255) % 256
      color_data := data.take (size * 3) }
  if size * 3 > cap then
    (-EINVAL, [ArgbEvent.errSizeTooBig])
  else
    let sizeofReport : Nat := 5 + cap
    let len := transferLen
    let warn : List ArgbEvent :=
      if len ≠ (sizeofReport : Int) then [ArgbEvent.warnTransferFailed] else []
    let ret : Int :=
      if len < 0 then len else if len ≠ (size : Int) then -EIO_val else 0
    (ret, [ArgbEvent.controlWrite report 0x01 sizeofReport] ++ warn)

/-! Sample reports used by the concrete witness instances. -/

/-- A fully zeroed report (as produced by `get_empty_razer_report`). -/
def zeroReport : razer_report := ⟨0, 0, 0, 0, 0, 0, 0, [], 0, 0⟩

/-- A sample request report with a nonzero transaction id. -/
def sampleRequest : razer_report := ⟨0, 0x3F, 0, 0, 2, 0x0F, 2, [1, 1], 0, 0⟩

/-- A sample request report with the reserved zero transaction id. -/
def zeroTidRequest : razer_report := ⟨0, 0, 0, 0, 2, 0x0F, 2, [1, 1], 0, 0⟩

/-- A well-formed device reply: `data_size = 2`, within capacity. -/
def goodReply : razer_report := ⟨0, 0xFF, 0, 0, 2, 0x0F, 2, [0x42], 0, 0⟩

/-- A malformed device reply whose declared `data_size` (81) exceeds the
arguments capacity (80). -/
def oversizedReply : razer_report := ⟨0, 0xFF, 0, 0, 81, 0x0F, 2, [], 0, 0⟩

/-- XOR-folds over the same index list agree when the two byte functions
agree on every index of the list. -/
theorem foldl_xor_congr (l : List Nat) (r₁ r₂ : Nat → Nat)
    (h : ∀ i ∈ l, r₁ i = r₂ i) (a : Nat) :
    l.foldl (fun crc i => crc ^^^ r₁ i % 256) a
      = l.foldl (fun crc i => crc ^^^ r₂ i % 256) a := by
  induction l generalizing a with
  | nil => rfl
  | cons x xs ih =>
    simp only [List.foldl_cons]
    rw [h x (List.mem_cons_self x xs)]
    exact ih (fun i hi => h i (List.mem_cons_of_mem x hi)) _

/-- C6: `razer_calculate_crc` is the XOR-reduction of the report's raw bytes
at offsets 2 through 87 inclusive, and therefore depends only on those
bytes: two serialized reports that agree on offsets [2, 88) have equal
checksums even if they differ at offsets 0, 1, or at/beyond 88.  (The
embedding is a pure function, matching the source, which only reads through
the `unsigned char *` view and never writes.) -/
theorem razer_calculate_crc_range_dependence (r₁ r₂ : Nat → Nat)
    (h : ∀ i, 2 ≤ i → i < 88 → r₁ i = r₂ i) :
    razer_calculate_crc r₁
        = ((List.range' 2 86).map (fun i => r₁ i % 256)).foldl (fun a b => a ^^^ b) 0
      ∧ razer_calculate_crc r₁ = razer_calculate_crc r₂ := by
  constructor
  · simp [razer_calculate_crc, List.foldl_map]
  · apply foldl_xor_congr
    intro i hi
    have hmem := List.mem_range'_1.mp hi
    exact h i hmem.1 (by omega)

/-- C6 witness: two concrete byte functions differing at offsets 0 and 90
but agreeing on [2, 88) have the same checksum. -/
theorem razer_calculate_crc_range_dependence_witness :
    razer_calculate_crc (fun i => if i = 0 then 1 else i)
      = razer_calculate_crc (fun i => if i = 90 then 7 else if i = 0 then 2 else i) :=
  (razer_calculate_crc_range_dependence _ _
    (fun i h1 h2 => by
      have h0 : i ≠ 0 := by omega
      have h90 : i ≠ 90 := by omega
      simp [h0, h90])).2

/-- C1: whenever the scratch allocation succeeds and the device reply's
declared `data_size` exceeds the arguments-array capacity,
`razer_get_usb_response` returns `-EINVAL` and the response report handed
back to the caller has `data_size` clamped to exactly the capacity
constant. -/
theorem razer_get_usb_response_clamps_oversized_data_size
    (req resp0 : razer_report) (t : UsbExchangeInput)
    (halloc : t.allocOk = true)
    (hover : t.readData.data_size > argumentsCapacity) :
    (razer_get_usb_response req resp0 t).ret = -EINVAL ∧
    (razer_get_usb_response req resp0 t).response_report.data_size
      = argumentsCapacity := by
  simp [razer_get_usb_response, halloc, hover]

/-- C1 witness: a reply declaring `data_size = 81` yields `-EINVAL` and a
returned `data_size` of exactly 80. -/
theorem razer_get_usb_response_clamps_oversized_data_size_witness :
    (razer_get_usb_response sampleRequest zeroReport
        ⟨true, 0, 90, oversizedReply⟩).ret = -EINVAL ∧
    (razer_get_usb_response sampleRequest zeroReport
        ⟨true, 0, 90, oversizedReply⟩).response_report.data_size
      = argumentsCapacity :=
  razer_get_usb_response_clamps_oversized_data_size sampleRequest zeroReport
    ⟨true, 0, 90, oversizedReply⟩ rfl (by decide)

/-- C3: once the scratch allocation succeeds, the device-to-host read
transfer is always issued — for every transport double, hence for every
write-phase result (including errors), the event trace contains the read;
no write-phase error value causes an early return before the read. -/
theorem razer_get_usb_response_always_reads
    (req resp0 : razer_report) (t : UsbExchangeInput)
    (halloc : t.allocOk = true) :
    UsbEvent.controlRead ∈ (razer_get_usb_response req resp0 t).events := by
  simp only [razer_get_usb_response, halloc]
  split_ifs <;> simp_all

/-- C3 witness: with a write phase that failed with a transport error
(`sendResult = -110`, a timeout), the read is still attempted. -/
theorem razer_get_usb_response_always_reads_witness :
    UsbEvent.controlRead ∈
      (razer_get_usb_response sampleRequest zeroReport
        ⟨true, -110, 90, goodReply⟩).events :=
  razer_get_usb_response_always_reads sampleRequest zeroReport
    ⟨true, -110, 90, goodReply⟩ rfl

/-- C4: a zero transaction id in the request report is coerced to `0xFF`,
and the coercion is an in-place mutation of the caller's request-report
object (the returned request report reads back `0xFF`); a nonzero
transaction id leaves the caller's report unchanged.  When the allocation
succeeds, the report transmitted by the write phase is exactly that
(possibly coerced) report. -/
theorem razer_get_usb_response_transaction_id_coercion
    (req resp0 : razer_report) (t : UsbExchangeInput) :
    ((razer_get_usb_response req resp0 t).request_report =
      if req.transaction_id = 0 then { req with transaction_id := 0xFF } else req) ∧
    (t.allocOk = true →
      UsbEvent.controlWrite
          (if req.transaction_id = 0 then { req with transaction_id := 0xFF } else req)
        ∈ (razer_get_usb_response req resp0 t).events) := by
  constructor
  · simp only [razer_get_usb_response]
    split_ifs <;> simp_all
  · intro halloc
    simp only [razer_get_usb_response, halloc]
    split_ifs <;> simp_all

/-- C4 witness: a request with transaction id `0x00` reads back `0xFF`
after the call and the transmitted report carries `0xFF`; a request with
transaction id `0x3F` is returned and transmitted unchanged. -/
theorem razer_get_usb_response_transaction_id_coercion_witness :
    ((razer_get_usb_response zeroTidRequest zeroReport
        ⟨true, 0, 90, goodReply⟩).request_report
      = { zeroTidRequest with transaction_id := 0xFF }) ∧
    (UsbEvent.controlWrite { zeroTidRequest with transaction_id := 0xFF }
      ∈ (razer_get_usb_response zeroTidRequest zeroReport
          ⟨true, 0, 90, goodReply⟩).events) ∧
    ((razer_get_usb_response sampleRequest zeroReport
        ⟨true, 0, 90, goodReply⟩).request_report = sampleRequest) := by
  have h0 := razer_get_usb_response_transaction_id_coercion zeroTidRequest zeroReport
    ⟨true, 0, 90, goodReply⟩
  have h1 := razer_get_usb_response_transaction_id_coercion sampleRequest zeroReport
    ⟨true, 0, 90, goodReply⟩
  refine ⟨?_, ?_, ?_⟩
  · have := h0.1
    simpa [zeroTidRequest] using this
  · have := h0.2 rfl
    simpa [zeroTidRequest] using this
  · have := h1.1
    simpa [sampleRequest] using this

/-- C7: when the allocation succeeds, the read transfer's byte count
differs from the full record length (90), and the reply's `data_size` is
within capacity, `razer_get_usb_response` returns the shape-error code `1`
(not a hard negative failure), emits the invalid-length diagnostic, and the
read buffer is still copied into the caller's response report. -/
theorem razer_get_usb_response_short_read_shape_error
    (req resp0 : razer_report) (t : UsbExchangeInput)
    (halloc : t.allocOk = true)
    (hlen : t.readLen ≠ (90 : Int))
    (hsize : t.readData.data_size ≤ argumentsCapacity) :
    (razer_get_usb_response req resp0 t).ret = 1 ∧
    (razer_get_usb_response req resp0 t).response_report = t.readData ∧
    UsbEvent.warnInvalidLength ∈ (razer_get_usb_response req resp0 t).events := by
  have hsize' : ¬ t.readData.data_size > argumentsCapacity := by omega
  simp only [razer_get_usb_response, halloc, RAZER_USB_REPORT_LEN]
  split_ifs <;> simp_all

/-- C7 witness: a 60-byte read of a reply with `data_size = 2` yields
return code `1`, the reply copied out, and the diagnostic. -/
theorem razer_get_usb_response_short_read_shape_error_witness :
    (razer_get_usb_response sampleRequest zeroReport
        ⟨true, 0, 60, goodReply⟩).ret = 1 ∧
    (razer_get_usb_response sampleRequest zeroReport
        ⟨true, 0, 60, goodReply⟩).response_report = goodReply ∧
    UsbEvent.warnInvalidLength ∈
      (razer_get_usb_response sampleRequest zeroReport
        ⟨true, 0, 60, goodReply⟩).events :=
  razer_get_usb_response_short_read_shape_error sampleRequest zeroReport
    ⟨true, 0, 60, goodReply⟩ rfl (by decide) (by decide)

/-- C9: once the allocation succeeds, the captured write-phase result never
influences anything `razer_get_usb_response` produces — replacing
`sendResult` by any value leaves the entire result unchanged — and in
particular an exchange whose write phase failed with a transport error
still returns success (0) whenever the read returns exactly 90 bytes and
the reply's `data_size` is within capacity. -/
theorem razer_get_usb_response_ignores_write_result
    (req resp0 : razer_report) (t : UsbExchangeInput) (v : Int) :
    (razer_get_usb_response req resp0 { t with sendResult := v }
      = razer_get_usb_response req resp0 t) ∧
    (t.allocOk = true → t.sendResult < 0 → t.readLen = (90 : Int) →
      t.readData.data_size ≤ argumentsCapacity →
      (razer_get_usb_response req resp0 t).ret = 0) := by
  constructor
  · rfl
  · intro halloc _ hlen hsize
    have hsize' : ¬ t.readData.data_size > argumentsCapacity := by omega
    simp [razer_get_usb_response, halloc, hlen, hsize', RAZER_USB_REPORT_LEN]

/-- C9 witness: a write phase that failed with `-EIO` does not stop a
90-byte, in-capacity reply from producing return value 0, and swapping the
write result for success changes nothing. -/
theorem razer_get_usb_response_ignores_write_result_witness :
    (razer_get_usb_response sampleRequest zeroReport
        ⟨true, 0, 90, goodReply⟩
      = razer_get_usb_response sampleRequest zeroReport
        ⟨true, -EIO_val, 90, goodReply⟩) ∧
    (razer_get_usb_response sampleRequest zeroReport
        ⟨true, -EIO_val, 90, goodReply⟩).ret = 0 :=
  ⟨(razer_get_usb_response_ignores_write_result sampleRequest zeroReport
      ⟨true, -EIO_val, 90, goodReply⟩ 0).1,
   (razer_get_usb_response_ignores_write_result sampleRequest zeroReport
      ⟨true, -EIO_val, 90, goodReply⟩ 0).2 rfl (by decide) rfl (by decide)⟩

/-- C5: when `count * 3` exceeds the color-data buffer capacity,
`razer_send_argb_msg` returns `-EINVAL` and issues no control transfer at
all — the event trace contains no transfer event of any shape. -/
theorem razer_send_argb_msg_rejects_oversized
    (cap channel size : Nat) (data : List Nat) (tlen : Int)
    (h : size * 3 > cap) :
    (razer_send_argb_msg cap channel size data tlen).1 = -EINVAL ∧
    ∀ f i l, ArgbEvent.controlWrite f i l
      ∉ (razer_send_argb_msg cap channel size data tlen).2 := by
  refine ⟨?_, ?_⟩ <;> simp [razer_send_argb_msg, h]

/-- C5 witness: `count = 106` with capacity 315 (`106 * 3 = 318 > 315`)
returns `-EINVAL` with zero transfer attempts. -/
theorem razer_send_argb_msg_rejects_oversized_witness :
    (razer_send_argb_msg 315 4 106 (List.replicate 318 7) 320).1 = -EINVAL ∧
    ∀ f i l, ArgbEvent.controlWrite f i l
      ∉ (razer_send_argb_msg 315 4 106 (List.replicate 318 7) 320).2 :=
  razer_send_argb_msg_rejects_oversized 315 4 106 (List.replicate 318 7) 320
    (by decide)

/-- C8: every frame that passes the capacity check is transmitted with
`report_id = 0x04` when `channel < 5` and `0x84` otherwise, both channel
fields equal to `channel`, a zero pad byte, `last_idx = count - 1` (for
`count ≥ 1`; `count` is an `unsigned char`, hence below 256), over a
control transfer with the fixed index `0x01`. -/
theorem razer_send_argb_msg_frame_fields
    (cap channel size : Nat) (data : List Nat) (tlen : Int)
    (hsize : size < 256) (hcap : size * 3 ≤ cap) :
    ∃ f, ArgbEvent.controlWrite f 0x01 (5 + cap)
        ∈ (razer_send_argb_msg cap channel size data tlen).2 ∧
      f.report_id = (if channel < 5 then 0x04 else 0x84) ∧
      f.channel_1 = channel ∧ f.channel_2 = channel ∧ f.pad = 0 ∧
      (1 ≤ size → f.last_idx = size - 1) := by
  have hcap' : ¬ size * 3 > cap := by omega
  refine ⟨⟨if channel < 5 then 0x04 else 0x84, channel, channel, 0,
      (size + 255) % 256, data.take (size * 3)⟩, ?_, rfl, rfl, rfl, rfl, ?_⟩
  · simp [razer_send_argb_msg, hcap']
  · intro h1
    show (size + 255) % 256 = size - 1
    omega

/-- C8 witness: `channel = 4, count = 10` transmits `report_id = 0x04` and
`channel = 5, count = 10` transmits `report_id = 0x84`, both with
`last_idx = 9` at index `0x01`. -/
theorem razer_send_argb_msg_frame_fields_witness :
    (∃ f, ArgbEvent.controlWrite f 0x01 (5 + 315)
        ∈ (razer_send_argb_msg 315 4 10 (List.replicate 30 7) 320).2 ∧
      f.report_id = (if 4 < 5 then 0x04 else 0x84) ∧
      f.channel_1 = 4 ∧ f.channel_2 = 4 ∧ f.pad = 0 ∧
      (1 ≤ 10 → f.last_idx = 10 - 1)) ∧
    (∃ f, ArgbEvent.controlWrite f 0x01 (5 + 315)
        ∈ (razer_send_argb_msg 315 5 10 (List.replicate 30 7) 320).2 ∧
      f.report_id = (if 5 < 5 then 0x04 else 0x84) ∧
      f.channel_1 = 5 ∧ f.channel_2 = 5 ∧ f.pad = 0 ∧
      (1 ≤ 10 → f.last_idx = 10 - 1)) :=
  ⟨razer_send_argb_msg_frame_fields 315 4 10 (List.replicate 30 7) 320
      (by decide) (by decide),
   razer_send_argb_msg_frame_fields 315 5 10 (List.replicate 30 7) 320
      (by decide) (by decide)⟩

/-- C10: `count = 0` is not rejected: `0 * 3` passes the capacity check for
every capacity, the transmitted frame's `last_idx` is 255 (the byte
wrap-around of `0 - 1`), its copied payload is empty, and the control
transfer is still issued with that frame. -/
theorem razer_send_argb_msg_count_zero
    (cap channel : Nat) (data : List Nat) (tlen : Int) :
    ArgbEvent.errSizeTooBig ∉ (razer_send_argb_msg cap channel 0 data tlen).2 ∧
    ∃ f, ArgbEvent.controlWrite f 0x01 (5 + cap)
        ∈ (razer_send_argb_msg cap channel 0 data tlen).2 ∧
      f.last_idx = 255 ∧ f.color_data = [] := by
  constructor
  · simp [razer_send_argb_msg]
  · refine ⟨⟨if channel < 5 then 0x04 else 0x84, channel, channel, 0, 255, []⟩,
      ?_, rfl, rfl⟩
    simp [razer_send_argb_msg]

/-- C2: the source's return value compares the transferred count against
the `size` parameter (the LED count), not against `sizeof(report)`: a
transfer that moves the full 320-byte frame (capacity 315) with
`count = 10` returns `-EIO` even though it also emits no short-transfer
diagnostic, while a 10-byte transfer — far short of the frame — returns 0
yet emits the diagnostic.  This contradicts both the claim and the code's
own diagnostic check on the preceding line. -/
theorem razer_send_argb_msg_return_checks_count_not_frame :
    ((razer_send_argb_msg 315 4 10 (List.replicate 30 7) 320).1 = -EIO_val ∧
     ArgbEvent.warnTransferFailed
       ∉ (razer_send_argb_msg 315 4 10 (List.replicate 30 7) 320).2) ∧
    ((razer_send_argb_msg 315 4 10 (List.replicate 30 7) 10).1 = 0 ∧
     ArgbEvent.warnTransferFailed
       ∈ (razer_send_argb_msg 315 4 10 (List.replicate 30 7) 10).2) := by
  refine ⟨⟨?_, ?_⟩, ?_, ?_⟩ <;> decide

end Razer
